import Mathlib

/-
Verification of the background job orchestrator (job_manager.py) of the
d1sapsync repository.  The JobManager class is shallowly embedded: each
per-job dictionary becomes a JobState record, the jobs mapping becomes an
association list, child processes and wall-clock readings are passed in
explicitly as parameters (spawn results, exit codes, output lines and
timestamps), and each method becomes a pure function on these states.
-/

namespace D1SapSync

/-- Job status enumeration, mirroring the JobStatus Enum. -/
inductive JobStatus where
  | stopped
  | running
  | failed
  | completed
  | scheduled
deriving DecidableEq, Repr

/-- String value of a status, as produced by the Python Enum's value. -/
def JobStatus.value : JobStatus → String
  | .stopped => "stopped"
  | .running => "running"
  | .failed => "failed"
  | .completed => "completed"
  | .scheduled => "scheduled"

/-- A structured log entry with timestamp, level and message. -/
structure LogEntry where
  timestamp : Nat
  level : String
  message : String
deriving DecidableEq, Repr

/-- Runtime state of one job: the per-job dictionary built by register_job.
Thread handles are omitted; the process handle is a pid.  Times are Nat. -/
structure JobState where
  name : String
  command : String
  description : String
  auto_restart : Bool
  restart_delay : Nat
  run_interval : Nat
  auto_start : Bool
  max_restarts : Nat
  enabled : Bool
  status : JobStatus
  process : Option Nat
  start_time : Option Nat
  end_time : Option Nat
  last_run_time : Option Nat
  next_run_time : Option Nat
  logs : List LogEntry
  log_queue : List LogEntry
  restart_count : Nat
  run_count : Nat
  is_scheduled : Bool
deriving DecidableEq, Repr

/-- A job configuration dictionary; keys read with config.get are Options. -/
structure JobConfig where
  job_id : String
  command : String
  name : Option String := none
  description : Option String := none
  auto_restart : Option Bool := none
  restart_delay : Option Nat := none
  run_interval : Option Nat := none
  auto_start : Option Bool := none
  max_restarts : Option Nat := none
  enabled : Option Bool := none
deriving DecidableEq, Repr

/-- The fresh runtime state that register_job builds from a config.  Note the
source reads run_interval with default 300 for the field but with default 0
for the is_scheduled test. -/
def initialJobState (c : JobConfig) : JobState :=
  { name := c.name.getD c.job_id
    command := c.command
    description := c.description.getD ""
    auto_restart := c.auto_restart.getD false
    restart_delay := c.restart_delay.getD 30
    run_interval := c.run_interval.getD 300
    auto_start := c.auto_start.getD false
    max_restarts := c.max_restarts.getD 5
    enabled := c.enabled.getD true
    status := .stopped
    process := none
    start_time := none
    end_time := none
    last_run_time := none
    next_run_time := none
    logs := []
    log_queue := []
    restart_count := 0
    run_count := 0
    is_scheduled := decide (0 < c.run_interval.getD 0) }

/-- The jobs mapping of JobManager, as an association list keyed by job id. -/
abbrev JMState := List (String × JobState)

/-- Dictionary lookup self.jobs[job_id] (None when absent). -/
def lookupJob : JMState → String → Option JobState
  | [], _ => none
  | (k, v) :: rest, id => if k = id then some v else lookupJob rest id

/-- Dictionary write self.jobs[job_id] = j (replace, or insert when absent). -/
def setJob : JMState → String → JobState → JMState
  | [], id, j => [(id, j)]
  | (k, v) :: rest, id, j => if k = id then (k, j) :: rest else (k, v) :: setJob rest id j

/-- register_job: insert a fresh runtime state keyed by the config's job id. -/
def register_job (m : JMState) (c : JobConfig) : JMState :=
  setJob m c.job_id (initialJobState c)

/-- Result of attempting to spawn a child process: a pid, or an exception. -/
inductive SpawnResult where
  | ok (pid : Nat)
  | err
deriving DecidableEq, Repr

/-- Outcome of one child run: an exit code once output is drained, or a
launch exception. -/
inductive RunResult where
  | exited (code : Int)
  | launchError
deriving DecidableEq, Repr

/-- Output lines read from a child with their read timestamps; the read loops
skip empty lines and strip the kept ones. -/
def lineEntries (ls : List (Nat × String)) : List LogEntry :=
  (ls.filter fun p => p.2 != "").map fun p =>
    { timestamp := p.1, level := "INFO", message := p.2.trim }

/-- The body of _start_scheduled_job: enter Scheduled, record the start time
and arm the first run for now. -/
def start_scheduled_job (j : JobState) (now : Nat) : Bool × JobState :=
  (true, { j with status := .scheduled, start_time := some now, next_run_time := some now })

/-- The body of _start_continuous_job: clear the retained logs and the log
pipe, then spawn; a spawn exception escapes with the logs already cleared. -/
def start_continuous_job (j : JobState) (now : Nat) (spawn : SpawnResult) :
    Except JobState (Bool × JobState) :=
  let j0 := { j with logs := [], log_queue := [] }
  match spawn with
  | .ok pid =>
    .ok (true, { j0 with
      process := some pid
      status := .running
      start_time := some now
      end_time := none })
  | .err => .error j0

/-- The body of start_job for a registered job: no-op when already
Running/Scheduled, otherwise reset restart_count and dispatch by mode; an
exception from the dispatch sets Failed and returns failure. -/
def start_job_core (j : JobState) (now : Nat) (spawn : SpawnResult) : Bool × JobState :=
  if j.status = .running ∨ j.status = .scheduled then (true, j)
  else
    let j1 := { j with restart_count := 0 }
    if j1.is_scheduled then start_scheduled_job j1 now
    else
      match start_continuous_job j1 now spawn with
      | .ok r => r
      | .error j2 => (false, { j2 with status := .failed })

/-- start_job: failure when the id is unregistered, else run the core. -/
def start_job (m : JMState) (id : String) (now : Nat) (spawn : SpawnResult) :
    Bool × JMState :=
  match lookupJob m id with
  | none => (false, m)
  | some j =>
    let r := start_job_core j now spawn
    (r.1, setJob m id r.2)

/-- What stop_job did to the job's active child process. -/
inductive StopAction where
  | noChild
  | terminatedGracefully
  | forceKilled
deriving DecidableEq, Repr

/-- The body of stop_job for a registered job; exitsInGrace says whether the
child honours terminate() within the bounded wait, otherwise it is killed. -/
def stop_job_core (j : JobState) (now : Nat) (exitsInGrace : Bool) :
    Bool × JobState × StopAction :=
  if j.status = .running ∨ j.status = .scheduled then
    let act := match j.process with
      | none => StopAction.noChild
      | some _ => if exitsInGrace then StopAction.terminatedGracefully else StopAction.forceKilled
    (true, { j with status := .stopped, end_time := some now }, act)
  else (true, j, .noChild)

/-- stop_job: failure when the id is unregistered, else run the core. -/
def stop_job (m : JMState) (id : String) (now : Nat) (exitsInGrace : Bool) :
    Bool × JMState × StopAction :=
  match lookupJob m id with
  | none => (false, m, .noChild)
  | some j =>
    let r := stop_job_core j now exitsInGrace
    (r.1, setJob m id r.2.1, r.2.2)

/-- restart_job: stop, brief pause, then start; returns the start outcome. -/
def restart_job (m : JMState) (id : String) (stopTime startTime : Nat)
    (exitsInGrace : Bool) (spawn : SpawnResult) : Bool × JMState :=
  let s := stop_job m id stopTime exitsInGrace
  start_job s.2.1 id startTime spawn

/-- The body of _execute_job_run: one synchronous run; each output line and a
final outcome entry go onto the log pipe; a failed or unlaunchable run
increments restart_count and reports failure. -/
def execute_job_run (j : JobState) (res : RunResult) (outLines : List (Nat × String))
    (doneTime : Nat) : Bool × JobState :=
  match res with
  | .launchError =>
    (false, { j with
      log_queue := j.log_queue ++
        [{ timestamp := doneTime, level := "ERROR", message := "Job execution error" }],
      restart_count := j.restart_count + 1 })
  | .exited code =>
    let j1 := { j with log_queue := j.log_queue ++ lineEntries outLines }
    if code = 0 then
      (true, { j1 with log_queue := j1.log_queue ++
        [{ timestamp := doneTime, level := "INFO", message := "Job run completed successfully" }] })
    else
      (false, { j1 with
        log_queue := j1.log_queue ++
          [{ timestamp := doneTime, level := "ERROR", message := "Job run failed with return code" }],
        restart_count := j1.restart_count + 1 })

/-- One iteration of the _schedule_job while-loop: nothing happens unless the
status is still Scheduled and the tick time has reached next_run_time; a due
run is executed synchronously, counters and times updated, the next run
scheduled from the completion time, and the loop exits into Failed when a
failed run has driven restart_count to max_restarts. -/
def schedule_tick (j : JobState) (tickTime doneTime : Nat) (res : RunResult)
    (outLines : List (Nat × String)) : JobState :=
  if j.status = .scheduled then
    match j.next_run_time with
    | none => j
    | some nrt =>
      if nrt ≤ tickTime then
        let j1 := { j with
          log_queue := j.log_queue ++
            [{ timestamp := tickTime, level := "INFO", message := "Starting scheduled run" }],
          last_run_time := some tickTime,
          run_count := j.run_count + 1 }
        let r : Bool × JobState := execute_job_run j1 res outLines doneTime
        let j2 : JobState := { r.2 with next_run_time := some (doneTime + r.2.run_interval) }
        if r.1 = false ∧ j2.max_restarts ≤ j2.restart_count then
          { j2 with status := .failed, end_time := some doneTime }
        else j2
      else j
  else j

/-- The body of _monitor_job for one continuous-process episode: drain the
child's output, classify its exit, record the end time, and when auto_restart
is set and the exit failed, bump restart_count and re-invoke start_job after
the restart delay. -/
def monitor_job (j : JobState) (outLines : List (Nat × String)) (code : Int)
    (exitTime restartTime : Nat) (spawn : SpawnResult) : JobState :=
  let j1 := { j with log_queue := j.log_queue ++ lineEntries outLines }
  let j2 := if code = 0 then { j1 with status := .completed } else { j1 with status := .failed }
  let j3 := { j2 with end_time := some exitTime }
  if j3.auto_restart = true ∧ j3.status = .failed then
    (start_job_core { j3 with restart_count := j3.restart_count + 1 } restartTime spawn).2
  else j3

/-- The read-only snapshot returned by get_job_status. -/
structure StatusSnapshot where
  job_id : String
  name : String
  description : String
  status : String
  is_scheduled : Bool
  run_interval : Nat
  start_time : Option Nat
  end_time : Option Nat
  last_run_time : Option Nat
  next_run_time : Option Nat
  restart_count : Nat
  run_count : Nat
  max_restarts : Nat
  auto_restart : Bool
  enabled : Bool
  pid : Option Nat
  log_count : Nat
deriving DecidableEq, Repr, Inhabited

/-- get_job_status: a snapshot of the runtime state, or none when the id is
unregistered.  The pid is exposed only while the status is Running. -/
def get_job_status (m : JMState) (id : String) : Option StatusSnapshot :=
  match lookupJob m id with
  | none => none
  | some j => some
    { job_id := id
      name := j.name
      description := j.description
      status := j.status.value
      is_scheduled := j.is_scheduled
      run_interval := j.run_interval
      start_time := j.start_time
      end_time := j.end_time
      last_run_time := j.last_run_time
      next_run_time := j.next_run_time
      restart_count := j.restart_count
      run_count := j.run_count
      max_restarts := j.max_restarts
      auto_restart := j.auto_restart
      enabled := j.enabled
      pid := match j.process with
        | some p => if j.status = .running then some p else none
        | none => none
      log_count := j.logs.length }

/-- Python trailing slice l[-n:]: the whole list when n = 0 (since -0 is 0),
otherwise the last n elements. -/
def takeLastPy (l : List LogEntry) (n : Nat) : List LogEntry :=
  if n = 0 then l else l.drop (l.length - n)

/-- get_job_logs: empty result when unregistered; otherwise drain the log
pipe into the retained buffer and return the trailing slice of it. -/
def get_job_logs (m : JMState) (id : String) (lines : Nat) : List LogEntry × JMState :=
  match lookupJob m id with
  | none => ([], m)
  | some j =>
    let drained := j.logs ++ j.log_queue
    let j1 := { j with logs := drained, log_queue := [] }
    let res := if drained = [] then [] else takeLastPy drained lines
    (res, setJob m id j1)

theorem lookupJob_setJob_self (m : JMState) (id : String) (j : JobState) :
    lookupJob (setJob m id j) id = some j := by
  induction m with
  | nil => simp [setJob, lookupJob]
  | cons kv rest ih =>
    obtain ⟨k, v⟩ := kv
    by_cases hk : k = id
    · simp [setJob, hk, lookupJob]
    · simp [setJob, hk, lookupJob, ih]

theorem setJob_self (m : JMState) (id : String) (j : JobState)
    (h : lookupJob m id = some j) : setJob m id j = m := by
  induction m with
  | nil => simp [lookupJob] at h
  | cons kv rest ih =>
    obtain ⟨k, v⟩ := kv
    by_cases hk : k = id
    · simp [lookupJob, hk] at h
      simp [setJob, hk, h]
    · simp [lookupJob, hk] at h
      simp [setJob, hk, ih h]

/-- A continuous job configured as in claim C1: auto_restart on, a restart
cap of 3, no run interval, no restart delay. -/
def c1Config : JobConfig :=
  { job_id := "cont"
    command := "cmd"
    auto_restart := some true
    max_restarts := some 3
    run_interval := some 0
    restart_delay := some 0 }

/-- The C1 job right after a manual start that spawned pid 1. -/
def c1Job : JobState := (start_job_core (initialJobState c1Config) 0 (.ok 1)).2

/-- One failing episode for the C1 job: its child exits with status 1 and
the monitor reacts, respawning as pid 2. -/
def c1Step (j : JobState) : JobState := monitor_job j [] 1 0 0 (.ok 2)

/-- Claim C1 (code bug): with auto_restart on and max_restarts = 3, four
consecutive failing exits leave the job Running again with restart_count 0,
because the auto-restart branch re-enters start_job, which resets
restart_count, and no max_restarts check exists on the continuous path; the
job never settles in Failed. -/
theorem C1_auto_restart_unbounded :
    c1Job.status = .running ∧
    (c1Step (c1Step (c1Step (c1Step c1Job)))).status = .running ∧
    (c1Step (c1Step (c1Step (c1Step c1Job)))).restart_count = 0 := by
  refine ⟨rfl, rfl, rfl⟩

/-- Claim C7: a continuous child exiting with status zero moves the job to
Completed with its end time recorded, and nothing else changes — in
particular no relaunch happens even when auto_restart is set, since the
auto-restart branch requires status Failed. -/
theorem C7_clean_exit_completes_without_restart (j : JobState)
    (ls : List (Nat × String)) (exitTime restartTime : Nat) (spawn : SpawnResult) :
    monitor_job j ls 0 exitTime restartTime spawn =
      { j with
        log_queue := j.log_queue ++ lineEntries ls
        status := .completed
        end_time := some exitTime } := by
  simp [monitor_job]

/-- Claim C9: every operation invoked with an unregistered job id reports
failure (false, none or an empty result) and returns the manager state
unchanged: no job entry is created or modified. -/
theorem C9_unregistered_ops_leave_state_unchanged (m : JMState) (id : String)
    (t1 t2 : Nat) (g : Bool) (spawn : SpawnResult) (n : Nat)
    (h : lookupJob m id = none) :
    start_job m id t1 spawn = (false, m) ∧
    stop_job m id t1 g = (false, m, .noChild) ∧
    restart_job m id t1 t2 g spawn = (false, m) ∧
    get_job_status m id = none ∧
    get_job_logs m id n = ([], m) := by
  refine ⟨?_, ?_, ?_, ?_, ?_⟩ <;>
    simp [start_job, stop_job, restart_job, get_job_status, get_job_logs, h]

/-- Witness for C9 at a concrete empty manager. -/
theorem C9_unregistered_ops_leave_state_unchanged_witness :
    start_job ([] : JMState) "x" 0 .err = (false, []) ∧
    get_job_status ([] : JMState) "x" = none :=
  ⟨(C9_unregistered_ops_leave_state_unchanged [] "x" 0 1 true .err 5 rfl).1,
   (C9_unregistered_ops_leave_state_unchanged [] "x" 0 1 true .err 5 rfl).2.2.2.1⟩

/-- Claim C2: on a due tick whose run exits non-zero, restart_count goes up
by exactly one; the loop keeps ticking (status stays Scheduled, with a next
run armed) unless the incremented count has reached max_restarts, in which
case the loop exits and the job becomes Failed. -/
theorem C2_scheduled_failure_policy (j : JobState) (t d nrt : Nat) (code : Int)
    (ls : List (Nat × String))
    (hs : j.status = .scheduled) (hn : j.next_run_time = some nrt)
    (hdue : nrt ≤ t) (hc : code ≠ 0) :
    (schedule_tick j t d (.exited code) ls).restart_count = j.restart_count + 1 ∧
    (j.restart_count + 1 < j.max_restarts →
      (schedule_tick j t d (.exited code) ls).status = .scheduled ∧
      (schedule_tick j t d (.exited code) ls).next_run_time = some (d + j.run_interval)) ∧
    (j.max_restarts ≤ j.restart_count + 1 →
      (schedule_tick j t d (.exited code) ls).status = .failed ∧
      (schedule_tick j t d (.exited code) ls).end_time = some d) := by
  simp only [schedule_tick, hs, hn, execute_job_run, if_pos hdue, if_neg hc, if_pos rfl]
  by_cases hcap : j.max_restarts ≤ j.restart_count + 1
  · simp [hcap]
  · simp [hcap]

/-- Witness for C2: a scheduled job one failure away from its cap fails. -/
theorem C2_scheduled_failure_policy_witness :
    (schedule_tick
      { initialJobState { job_id := "s", command := "c", run_interval := some 60, max_restarts := some 1 } with
        status := .scheduled, next_run_time := some 0 }
      5 9 (.exited 1) []).status = .failed :=
  ((C2_scheduled_failure_policy
      { initialJobState { job_id := "s", command := "c", run_interval := some 60, max_restarts := some 1 } with
        status := .scheduled, next_run_time := some 0 }
      5 9 0 1 [] rfl rfl (by decide) (by decide)).2.2 (by decide)).1

/-- Claim C3: on a due tick, exactly one run executes inside the loop:
run_count rises by exactly one, last_run_time is set to the tick time, and
next_run_time becomes the run's completion time plus the interval, whatever
the outcome; on a tick that is not due, the state is untouched. -/
theorem C3_scheduled_tick_runs_once (j : JobState) (t d nrt : Nat)
    (res : RunResult) (ls : List (Nat × String))
    (hs : j.status = .scheduled) (hn : j.next_run_time = some nrt) :
    (nrt ≤ t →
      (schedule_tick j t d res ls).run_count = j.run_count + 1 ∧
      (schedule_tick j t d res ls).last_run_time = some t ∧
      (schedule_tick j t d res ls).next_run_time = some (d + j.run_interval)) ∧
    (t < nrt → schedule_tick j t d res ls = j) := by
  constructor
  · intro hdue
    cases res with
    | launchError =>
      simp only [schedule_tick, hs, hn, execute_job_run, if_pos hdue, if_pos rfl]
      by_cases hcap : j.max_restarts ≤ j.restart_count + 1 <;> simp [hcap]
    | exited code =>
      by_cases hc : code = 0
      · simp [schedule_tick, hs, hn, execute_job_run, if_pos hdue, hc]
      · simp only [schedule_tick, hs, hn, execute_job_run, if_pos hdue, if_neg hc, if_pos rfl]
        by_cases hcap : j.max_restarts ≤ j.restart_count + 1 <;> simp [hcap]
  · intro hlt
    have : ¬ nrt ≤ t := by omega
    simp [schedule_tick, hs, hn, this]

/-- Witness for C3: a due tick of a fresh scheduled job bumps run_count. -/
theorem C3_scheduled_tick_runs_once_witness :
    (schedule_tick
      { initialJobState { job_id := "s", command := "c", run_interval := some 60 } with
        status := .scheduled, next_run_time := some 0 }
      3 4 (.exited 0) []).run_count = 1 :=
  ((C3_scheduled_tick_runs_once
      { initialJobState { job_id := "s", command := "c", run_interval := some 60 } with
        status := .scheduled, next_run_time := some 0 }
      3 4 0 (.exited 0) [] rfl rfl).1 (by decide)).1

/-- A one-job manager whose job has a single still-queued log entry. -/
def c4State : JMState :=
  [("a", { initialJobState { job_id := "a", command := "c" } with
           log_queue := [{ timestamp := 0, level := "INFO", message := "x" }] })]

/-- Claim C4 as stated is false at a requested line count of 0: the Python
trailing slice logs[-0:] is logs[0:], the whole buffer, so one entry comes
back although at most zero were requested. -/
theorem C4_counterexample :
    (get_job_logs c4State "a" 0).1.length = 1 ∧
    ¬ (get_job_logs c4State "a" 0).1.length ≤ 0 := by
  refine ⟨rfl, by decide⟩

/-- Claim C4 amended: for every requested line count of at least one, logs
first drains the queued entries into the retained buffer, then returns at
most that many entries, namely the trailing segment of the drained buffer in
chronological order (which includes lines queued since the previous call). -/
theorem C4_logs_drain_and_tail (m : JMState) (id : String) (n : Nat) (j : JobState)
    (hj : lookupJob m id = some j) (hn : 1 ≤ n) :
    (get_job_logs m id n).1.length ≤ n ∧
    (get_job_logs m id n).1 =
      (j.logs ++ j.log_queue).drop ((j.logs ++ j.log_queue).length - n) ∧
    (get_job_logs m id n).2 =
      setJob m id { j with logs := j.logs ++ j.log_queue, log_queue := [] } := by
  have hn0 : n ≠ 0 := by omega
  by_cases hd : j.logs ++ j.log_queue = []
  · simp [get_job_logs, hj, hd, takeLastPy]
  · refine ⟨?_, ?_, ?_⟩ <;> simp [get_job_logs, hj, hd, takeLastPy, hn0]
    omega

/-- Witness for C4 amended at the concrete one-entry manager. -/
theorem C4_logs_drain_and_tail_witness :
    (get_job_logs c4State "a" 10).1.length ≤ 10 :=
  (C4_logs_drain_and_tail c4State "a" 10
    { initialJobState { job_id := "a", command := "c" } with
      log_queue := [{ timestamp := 0, level := "INFO", message := "x" }] }
    rfl (by decide)).1

/-- Claim C5: start fails on an unregistered id; it is a successful no-op
when the status is already Running or Scheduled; otherwise restart_count is
reset to zero and startup dispatches on the job's mode — Scheduled for
interval mode, and for continuous mode Running on a successful spawn, while
a spawn failure yields false with the status set to Failed. -/
theorem C5_start_job_contract (m : JMState) (id : String) (now : Nat)
    (spawn : SpawnResult) :
    (lookupJob m id = none → start_job m id now spawn = (false, m)) ∧
    (∀ j, lookupJob m id = some j →
      ((j.status = .running ∨ j.status = .scheduled) →
        start_job m id now spawn = (true, m)) ∧
      (¬ (j.status = .running ∨ j.status = .scheduled) →
        ∃ j', lookupJob (start_job m id now spawn).2 id = some j' ∧
          j'.restart_count = 0 ∧
          (j.is_scheduled = true →
            (start_job m id now spawn).1 = true ∧ j'.status = .scheduled) ∧
          (j.is_scheduled = false →
            (∀ pid, spawn = .ok pid →
              (start_job m id now spawn).1 = true ∧ j'.status = .running) ∧
            (spawn = .err →
              (start_job m id now spawn).1 = false ∧ j'.status = .failed)))) := by
  constructor
  · intro h
    simp [start_job, h]
  · intro j hj
    constructor
    · intro hrun
      simp [start_job, hj, start_job_core, hrun, setJob_self m id j hj]
    · intro hrun
      refine ⟨(start_job_core j now spawn).2, ?_, ?_, ?_, ?_⟩
      · simp [start_job, hj, lookupJob_setJob_self]
      · cases spawn <;>
          simp [start_job_core, hrun, start_scheduled_job, start_continuous_job] <;>
          by_cases hsch : j.is_scheduled <;> simp [hsch]
      · intro hsch
        simp [start_job, hj, start_job_core, hrun, hsch, start_scheduled_job]
      · intro hsch
        constructor
        · intro pid hp
          subst hp
          simp [start_job, hj, start_job_core, hrun, hsch, start_continuous_job]
        · intro hp
          subst hp
          simp [start_job, hj, start_job_core, hrun, hsch, start_continuous_job]

/-- Witness for C5: starting a freshly registered continuous job succeeds. -/
theorem C5_start_job_contract_witness :
    (start_job (register_job [] { job_id := "b", command := "c", run_interval := some 0 })
      "b" 7 (.ok 9)).1 = true := by
  have h := ((C5_start_job_contract
      (register_job [] { job_id := "b", command := "c", run_interval := some 0 })
      "b" 7 (.ok 9)).2
      (initialJobState { job_id := "b", command := "c", run_interval := some 0 })
      rfl).2 (by decide)
  obtain ⟨j', _, _, _, hcont⟩ := h
  exact ((hcont rfl).1 9 rfl).1

/-- Claim C6: stop fails on an unregistered id; it is a successful no-op
when the job is not Running/Scheduled; otherwise it reports success, the job
becomes Stopped with its end time recorded and restart_count untouched, and
a present child process is terminated gracefully when it exits within the
grace period, else force-killed. -/
theorem C6_stop_job_contract (m : JMState) (id : String) (now : Nat) (g : Bool) :
    (lookupJob m id = none → stop_job m id now g = (false, m, .noChild)) ∧
    (∀ j, lookupJob m id = some j →
      (¬ (j.status = .running ∨ j.status = .scheduled) →
        stop_job m id now g = (true, m, .noChild)) ∧
      ((j.status = .running ∨ j.status = .scheduled) →
        (stop_job m id now g).1 = true ∧
        lookupJob (stop_job m id now g).2.1 id =
          some { j with status := .stopped, end_time := some now } ∧
        ({ j with status := JobStatus.stopped, end_time := some now } : JobState).restart_count
          = j.restart_count ∧
        (∀ p, j.process = some p →
          (stop_job m id now g).2.2 =
            if g then .terminatedGracefully else .forceKilled))) := by
  constructor
  · intro h
    simp [stop_job, h]
  · intro j hj
    constructor
    · intro hrun
      simp [stop_job, hj, stop_job_core, hrun, setJob_self m id j hj]
    · intro hrun
      refine ⟨?_, ?_, rfl, ?_⟩
      · simp [stop_job, hj, stop_job_core, hrun]
      · simp [stop_job, hj, stop_job_core, hrun, lookupJob_setJob_self]
      · intro p hp
        simp [stop_job, hj, stop_job_core, hrun, hp]

/-- Witness for C6: stopping a running one-job manager reports success. -/
theorem C6_stop_job_contract_witness :
    (stop_job [("r", { initialJobState { job_id := "r", command := "c" } with
                       status := .running, process := some 4 })] "r" 9 true).1 = true :=
  (((C6_stop_job_contract
      [("r", { initialJobState { job_id := "r", command := "c" } with
               status := .running, process := some 4 })] "r" 9 true).2
      { initialJobState { job_id := "r", command := "c" } with
        status := .running, process := some 4 }
      rfl).2 (Or.inl rfl)).1

/-- A scheduled job registered, started at time 10, then stopped at 20. -/
def c8Config : JobConfig := { job_id := "s", command := "c", run_interval := some 60 }

def c8Stopped : JMState :=
  (stop_job (start_job (register_job [] c8Config) "s" 10 (.ok 1)).2 "s" 20 true).2.1

/-- Claim C8 as stated is false: after stopping a scheduled job the status
snapshot reports status stopped while next_run_time is still the stale value
set at start, because stop_job never clears the field. -/
theorem C8_counterexample :
    ((get_job_status c8Stopped "s").getD default).status = "stopped" ∧
    ((get_job_status c8Stopped "s").getD default).next_run_time = some 10 := by
  refine ⟨rfl, rfl⟩

/-- Claim C8 amended: next_run_time is set when a job enters Scheduled but is
never cleared on leaving that status; stopping a scheduled job leaves the
stale value in place, and the status snapshot shows it alongside status
stopped. -/
theorem C8_next_run_time_stale_after_stop (m : JMState) (id : String)
    (now : Nat) (g : Bool) (j : JobState)
    (hj : lookupJob m id = some j) (hs : j.status = .scheduled) :
    (get_job_status (stop_job m id now g).2.1 id).map StatusSnapshot.status
      = some "stopped" ∧
    (get_job_status (stop_job m id now g).2.1 id).map StatusSnapshot.next_run_time
      = some j.next_run_time := by
  have h1 : lookupJob (stop_job m id now g).2.1 id =
      some { j with status := .stopped, end_time := some now } := by
    simp [stop_job, hj, stop_job_core, hs, lookupJob_setJob_self]
  simp [get_job_status, h1, JobStatus.value]

/-- Witness for C8 amended at the concrete started-then-stopped manager. -/
theorem C8_next_run_time_stale_after_stop_witness :
    (get_job_status c8Stopped "s").map StatusSnapshot.next_run_time
      = some (some 10) :=
  (C8_next_run_time_stale_after_stop
    (start_job (register_job [] c8Config) "s" 10 (.ok 1)).2 "s" 20 true
    { initialJobState c8Config with
      status := .scheduled, start_time := some 10, next_run_time := some 10 }
    rfl rfl).2

/-- Claim C10: on a non-no-op start, a continuous job's retained log buffer
is emptied and its log pipe replaced by a fresh empty one, while a scheduled
job's buffer and pipe are left untouched. -/
theorem C10_log_reset_only_on_continuous_start (j : JobState) (now : Nat) (pid : Nat)
    (hrun : ¬ (j.status = .running ∨ j.status = .scheduled)) :
    (j.is_scheduled = false →
      (start_job_core j now (.ok pid)).2.logs = [] ∧
      (start_job_core j now (.ok pid)).2.log_queue = []) ∧
    (j.is_scheduled = true →
      (start_job_core j now (.ok pid)).2.logs = j.logs ∧
      (start_job_core j now (.ok pid)).2.log_queue = j.log_queue) := by
  constructor
  · intro hsch
    simp [start_job_core, hrun, hsch, start_continuous_job]
  · intro hsch
    simp [start_job_core, hrun, hsch, start_scheduled_job]

/-- Witness for C10: a stopped continuous job with old logs starts clean. -/
theorem C10_log_reset_only_on_continuous_start_witness :
    (start_job_core
      { initialJobState { job_id := "b", command := "c", run_interval := some 0 } with
        logs := [{ timestamp := 0, level := "INFO", message := "old" }] }
      3 (.ok 8)).2.logs = [] :=
  ((C10_log_reset_only_on_continuous_start
      { initialJobState { job_id := "b", command := "c", run_interval := some 0 } with
        logs := [{ timestamp := 0, level := "INFO", message := "old" }] }
      3 8 (by decide)).1 rfl).1

end D1SapSync
